import Mathlib

/-!
Verification development for the aura-ai-client repository.

The development shallowly embeds the chat-session controller
(`src/pages/Chat.jsx`, both the text-input and the voice variant), the
REST API client (`services/api.js`, stored in the second segment of
`src/components/JoinRoom.jsx`) and the S3-key URL helpers. JavaScript
strings become Lean `String`; `null`/`undefined`-able values become
`Option`; JS truthiness on strings ("" is falsy) and on arrays (every
array is truthy) is modelled explicitly; thrown `Error` values become
an explicit `JsError` value threaded through `Except`. Network calls
are modelled by quantifying over a `FetchOutcome` describing what the
single `fetch` of each API function does; React `setState` updates
(which in the source are all either whole-value replacements or
functional appends) become explicit state passing on a `ChatState`
record, and observable actions (HTTP calls, appended messages,
navigation) are collected in an effect trace.
-/

namespace AuraClient

/-! ## JavaScript string primitives -/

/-- Whitespace recognised by the model of JS `String.prototype.trim`
(the ASCII whitespace and line-terminator characters). -/
def isJsWs (c : Char) : Bool :=
  c = ' ' || c = '\t' || c = '\n' || c = '\r' ||
  c = Char.ofNat 11 || c = Char.ofNat 12

/-- Model of JS `trim` on the character list: drop whitespace from both ends. -/
def jsTrimList (l : List Char) : List Char :=
  ((l.dropWhile isJsWs).reverse.dropWhile isJsWs).reverse

/-- Model of JS `String.prototype.trim`. -/
def jsTrim (s : String) : String := ⟨jsTrimList s.data⟩

/-- Model of JS `a.startsWith`-style check on character lists:
does the second list start the first. -/
def startsWithL : List Char → List Char → Bool
  | _, [] => true
  | [], _ :: _ => false
  | c :: cs, p :: ps => c = p && startsWithL cs ps

/-- Model of JS `String.prototype.includes` restricted to character lists:
does `pat` occur as a contiguous sublist. -/
def containsSubL (pat : List Char) : List Char → Bool
  | [] => startsWithL [] pat
  | c :: cs => startsWithL (c :: cs) pat || containsSubL pat cs

/-- Model of JS `String.prototype.includes`. -/
def containsSubS (s pat : String) : Bool := containsSubL pat.data s.data

/-- JS `a || b` on strings, where the empty string is falsy. -/
def jsOrStr (a b : String) : String := if a = "" then b else a

/-- JS `a || b` on optional strings: `null`/`undefined` and `""` are falsy. -/
def jsOrO (a b : Option String) : Option String :=
  match a with
  | some s => if s = "" then b else some s
  | none => b

/-- JS `a || b` where `a` is an optional string and `b` a plain string. -/
def jsOrOS (a : Option String) (b : String) : String :=
  match a with
  | some s => if s = "" then b else s
  | none => b

/-- JS truthiness of an optional string value. -/
def jsTruthyO (a : Option String) : Bool :=
  match a with
  | some s => s ≠ ""
  | none => false

/-! ## Data model

`Product` mirrors the fields the rendering layer reads from each
product object of an assistant message; the claims only compare whole
product lists, never individual fields. -/

structure Product where
  id : Option String
  title : Option String
  price : Option String
  rating : Option String
  source : Option String
  link : Option String
  merged_image_url : Option String
deriving DecidableEq

/-- JS `a || b` on optional product lists. Arrays are always truthy in JS
(even `[]`), so a present list short-circuits. -/
def jsOrP (a b : Option (List Product)) : Option (List Product) :=
  match a with
  | some l => some l
  | none => b

/-- A chat message as the controller builds and renders it. Absent fields
(`undefined`/`null`) are `none`. -/
structure Msg where
  role : String
  content : String
  ranked_products : Option (List Product)
  styled_products : Option (List Product)
  products : Option (List Product)
  merged_images : Option (List String)
deriving DecidableEq

/-- A chat session object as returned by the backend; the controller reads
`chat_room_id`/`id`/`chat_id`, `session_name`/`name` and `messages`. -/
structure Chat where
  chat_room_id : Option String
  id : Option String
  chat_id : Option String
  session_name : Option String
  name : Option String
  messages : Option (List Msg)
deriving DecidableEq

/-- The persisted user record the controller reads from local storage.
A missing/falsy `username` or `user_id` is modelled by `""`. -/
structure User where
  username : String
  user_id : String
  photo_urls : Option (List String)
deriving DecidableEq

/-- The controller state: the component state hooks of the `Chat` page. -/
structure ChatState where
  chats : List Chat
  activeChat : Option Chat
  messages : List Msg
  input : String
  isSending : Bool
  user : Option User
deriving DecidableEq

/-! ## API client embedding

Each API function performs its argument validation, then one `fetch`.
What the network does is abstracted into a `FetchOutcome`; the
function body maps it to a resolved value or a thrown `JsError`
exactly as the `try`/`catch` in the source does. -/

/-- A caught JS value: `isError` models `value instanceof Error`.
All errors thrown by the API client itself are `Error` instances. -/
structure JsError where
  isError : Bool
  message : String
deriving DecidableEq

/-- The JSON error body parsed from a non-ok response
(`.catch(() => ({}))` yields both fields absent). -/
structure ErrBody where
  detail : Option String
  message : Option String
deriving DecidableEq

/-- Behaviour of the single `fetch` call of an API function:
it resolves ok with a parsed body, resolves non-ok with a status text
and parsed error body, or rejects (network failure). On a real network
failure the browser rejects the fetch promise with a `TypeError`,
which is an `Error` instance. -/
inductive FetchOutcome (β : Type) where
  | success (body : β)
  | httpError (statusText : String) (errBody : ErrBody)
  | reject (e : JsError)
deriving DecidableEq

/-- JS `a || b` chain step used on parsed error-body fields:
absent and `""` are falsy. -/
def jsOrS (a : Option String) (b : String) : String :=
  match a with
  | some s => if s = "" then b else s
  | none => b

/-- The resolved JSON of a successful `/api/chats/{userId}` response,
as the caller sees it: either an array of chats or some non-array value. -/
inductive ChatsJson where
  | arr (cs : List Chat)
  | notArr
deriving DecidableEq

/-- Embedding of `getChats(user_id)`: validation
(`!user_id || !user_id.trim()`) then the fetch, normalising non-ok
responses and rethrowing caught `Error` values unchanged. -/
def getChats_model (user_id : String) (o : FetchOutcome ChatsJson) :
    Except JsError ChatsJson :=
  if user_id = "" || jsTrim user_id = "" then
    .error ⟨true, "User ID is required"⟩
  else
    match o with
    | .success b => .ok b
    | .httpError statusText eb =>
        .error ⟨true, jsOrS eb.detail (jsOrS eb.message
          ("Failed to fetch chats: " ++ statusText))⟩
    | .reject e =>
        if e.isError then .error e
        else .error ⟨true, "Network error: Failed to connect to server"⟩

/-- Whether `getChats` reaches its `fetch` call (no validation throw). -/
def getChats_requestSent (user_id : String) : Bool :=
  !(user_id = "" || jsTrim user_id = "")

/-- The parsed JSON of a successful `POST /chat` response.
`response = ""` models an absent or empty reply string (falsy). -/
structure SendResp where
  response : String
  ranked_products : Option (List Product)
  styled_products : Option (List Product)
  merged_images : Option (List String)
deriving DecidableEq

/-- Embedding of `sendChatMessage(message, userId, threadId)`:
`message` is validated after trimming, `userId` only for truthiness
(`!userId`); then one fetch. `threadId` only contributes a request-body
field and is unobservable here. -/
def sendChatMessage_model (message userId : String) (_threadId : Option String)
    (o : FetchOutcome SendResp) : Except JsError SendResp :=
  if message = "" || jsTrim message = "" then
    .error ⟨true, "Message is required"⟩
  else if userId = "" then
    .error ⟨true, "User ID is required"⟩
  else
    match o with
    | .success b => .ok b
    | .httpError statusText eb =>
        .error ⟨true, jsOrS eb.detail (jsOrS eb.message
          ("Failed to send message: " ++ statusText))⟩
    | .reject e =>
        if e.isError then .error e
        else .error ⟨true, "Network error: Failed to send message"⟩

/-- Whether `sendChatMessage` reaches its `fetch` call. -/
def sendChatMessage_requestSent (message userId : String) : Bool :=
  !(message = "" || jsTrim message = "") && !(userId = "")

/-- The argument object of `createChat`. -/
structure ChatData where
  user_id : Option String
  session_name : Option String
deriving DecidableEq

/-- The validation phase of `createChat(chatData)`:
`if (!chatData || !chatData.user_id) throw ...` — truthiness only. -/
def createChat_validation (cd : ChatData) : Option String :=
  match cd.user_id with
  | none => some "User ID is required to create a chat"
  | some s => if s = "" then some "User ID is required to create a chat" else none

/-- Whether `createChat` reaches its `fetch` call. -/
def createChat_requestSent (cd : ChatData) : Bool :=
  (createChat_validation cd).isNone

/-! ## Chat session controller embedding

The controller's observable actions are collected into an effect
trace: function-level API invocations, appended messages
(`setMessages(prev => [...prev, m])` events — whole-list replacements
are state changes, not appends), navigation, and text-to-speech
playback. -/

inductive Eff where
  | apiSend (message userId : String) (threadId : Option String)
  | apiGetChats (userId : String)
  | navigate (path : String)
  | navigateDelayed (path : String) (ms : Nat)
  | appendMsg (m : Msg)
  | ttsPlay (text : String)
deriving DecidableEq

/-- The `user_id || `user_${username}`` resolution used throughout the page. -/
def uidOfUser (u : User) : String := jsOrStr u.user_id ("user_" ++ u.username)

/-- The `activeChat.chat_room_id || activeChat.id || activeChat.chat_id`
thread-id resolution. -/
def tidOfChat (c : Chat) : Option String := jsOrO c.chat_room_id (jsOrO c.id c.chat_id)

/-- Embedding of `fetchChatsWithUserId(user_id)` (Chat.jsx):
an early return on a falsy id, then `getChats`; a rejected promise or a
non-array body sets the chat list to `[]`; an array body replaces the
chat list and, only when no chat is active, selects the first chat and
loads its message list (or clears both when the list is empty). -/
def fetchChatsWithUserIdStep (st : ChatState) (user_id : String)
    (o : FetchOutcome ChatsJson) : ChatState × List Eff :=
  if user_id = "" then (st, [])
  else
    match getChats_model user_id o with
    | .error _ => ({ st with chats := [] }, [Eff.apiGetChats user_id])
    | .ok .notArr => ({ st with chats := [] }, [Eff.apiGetChats user_id])
    | .ok (.arr data) =>
        match data with
        | [] => ({ st with chats := [], activeChat := none, messages := [] },
                 [Eff.apiGetChats user_id])
        | firstChat :: rest =>
            if st.activeChat.isNone then
              ({ st with chats := firstChat :: rest,
                         activeChat := some firstChat,
                         messages := firstChat.messages.getD [] },
               [Eff.apiGetChats user_id])
            else
              ({ st with chats := firstChat :: rest }, [Eff.apiGetChats user_id])

/-- The user-role message of the optimistic append. -/
def userMsg (t : String) : Msg := ⟨"user", t, none, none, none, none⟩

/-- The assistant message built from a successful send response:
`products` is `ranked_products || styled_products || null`. -/
def assistantOfResp (resp : SendResp) : Msg :=
  ⟨"assistant", resp.response, resp.ranked_products, resp.styled_products,
   jsOrP resp.ranked_products resp.styled_products, resp.merged_images⟩

/-- The explanatory assistant message of the photo-precondition branch. -/
def photoReqMsg : Msg :=
  ⟨"assistant",
   "Please upload at least one photo in your dashboard before starting a chat. This helps us personalize product recommendations for you.",
   none, none, none, none⟩

/-- The generic error assistant message: `Error: <message || fallback>`. -/
def errAssistantMsg (e : JsError) : Msg :=
  ⟨"assistant",
   "Error: " ++ (if e.message = "" then "Failed to send message. Please try again." else e.message),
   none, none, none, none⟩

/-- Network behaviour visible to one run of the send protocol: what the
`POST /chat` fetch does and what the reconciliation `GET /api/chats` fetch
would do. -/
structure SendEnv where
  sendOutcome : FetchOutcome SendResp
  chatsOutcome : FetchOutcome ChatsJson
deriving DecidableEq

/-- The `try`/`catch`/`finally` body shared by both send variants, after
the optimistic append (state `st1`): invoke `sendChatMessage`; on success
with a truthy reply append the assistant message (the voice variant then
plays it back; a playback failure is caught and changes nothing), then
refetch the chat list when `user.user_id` is truthy; on failure append
either the photo-precondition guidance plus a delayed dashboard redirect,
or the generic error message. The rejection is never re-thrown. -/
def sendCore (st1 : ChatState) (u : User) (userId mt : String)
    (tid : Option String) (env : SendEnv) (tts : Bool) : ChatState × List Eff :=
  match sendChatMessage_model mt userId tid env.sendOutcome with
  | .ok resp =>
      let (st2, effs2) :=
        if resp.response = "" then (st1, ([] : List Eff))
        else ({ st1 with messages := st1.messages ++ [assistantOfResp resp] },
              [Eff.appendMsg (assistantOfResp resp)] ++
                (if tts then [Eff.ttsPlay resp.response] else []))
      let (st3, effs3) :=
        if u.user_id = "" then (st2, ([] : List Eff))
        else fetchChatsWithUserIdStep st2 (uidOfUser u) env.chatsOutcome
      (st3, effs2 ++ effs3)
  | .error e =>
      if e.message ≠ "" && containsSubS e.message "upload at least one photo" then
        ({ st1 with messages := st1.messages ++ [photoReqMsg] },
         [Eff.appendMsg photoReqMsg, Eff.navigateDelayed "/dashboard" 3000])
      else
        ({ st1 with messages := st1.messages ++ [errAssistantMsg e] },
         [Eff.appendMsg (errAssistantMsg e)])

/-- Embedding of `sendMessage` (text-input variant, Chat.jsx lines
126-196): guard against empty trimmed input, an in-flight send, and a
missing user/active chat; optimistically append the trimmed text as a
user message, clear the input, set the sending flag, run the protocol
body, and finally clear the sending flag. -/
def sendMessageStep (st : ChatState) (env : SendEnv) : ChatState × List Eff :=
  if jsTrim st.input = "" || st.isSending then (st, [])
  else
    match st.user with
    | none => (st, [])
    | some u =>
        if u.username = "" then (st, [])
        else
          match st.activeChat with
          | none => (st, [])
          | some ac =>
              let mt := jsTrim st.input
              let st1 := { st with messages := st.messages ++ [userMsg mt],
                                   input := "", isSending := true }
              let userId := uidOfUser u
              let tid := tidOfChat ac
              let (st2, effs) := sendCore st1 u userId mt tid env false
              ({ st2 with isSending := false },
               [Eff.appendMsg (userMsg mt), Eff.apiSend mt userId tid] ++ effs)

/-- Embedding of `sendMessageFromText(messageText)` (voice variant,
Chat.jsx lines 674-750): same guards; the raw (untrimmed) transcript is
appended and sent, there is no input box to clear, and the assistant
reply is handed to text-to-speech. -/
def sendMessageFromTextStep (st : ChatState) (text : String)
    (env : SendEnv) : ChatState × List Eff :=
  if jsTrim text = "" || st.isSending then (st, [])
  else
    match st.user with
    | none => (st, [])
    | some u =>
        if u.username = "" then (st, [])
        else
          match st.activeChat with
          | none => (st, [])
          | some ac =>
              let st1 := { st with messages := st.messages ++ [userMsg text],
                                   isSending := true }
              let userId := uidOfUser u
              let tid := tidOfChat ac
              let (st2, effs) := sendCore st1 u userId text tid env true
              ({ st2 with isSending := false },
               [Eff.appendMsg (userMsg text), Eff.apiSend text userId tid] ++ effs)

/-- The initial component state of the `Chat` page. -/
def initialChatState : ChatState := ⟨[], none, [], "", false, none⟩

/-- Embedding of the mount effect of the `Chat` page (Chat.jsx lines
18-41): missing stored user navigates to the login page; a user whose
profile has no photo references (list missing or empty) navigates to
the dashboard; otherwise, when `user_id` is truthy, chats are fetched.
A navigation leaves the page, so nothing further runs after it. -/
def mountStep (storedUser : Option User) (o : FetchOutcome ChatsJson) :
    ChatState × List Eff :=
  match storedUser with
  | none => (initialChatState, [Eff.navigate "/login"])
  | some pu =>
      let st1 := { initialChatState with user := some pu }
      if (match pu.photo_urls with
          | none => true
          | some l => l.isEmpty) then
        (st1, [Eff.navigate "/dashboard"])
      else
        if pu.user_id = "" then (st1, [])
        else
          let (st2, effs) := fetchChatsWithUserIdStep st1 (uidOfUser pu) o
          (st2, effs)

/-! ## Lemmas about the JS string primitives -/

/-- Left trim: drop leading whitespace. -/
def trimL (l : List Char) : List Char := l.dropWhile isJsWs

/-- Right trim: drop trailing whitespace. -/
def trimR (l : List Char) : List Char := (l.reverse.dropWhile isJsWs).reverse

lemma jsTrimList_eq (l : List Char) : jsTrimList l = trimR (trimL l) := rfl

lemma dropWhile_head_false (p : Char → Bool) :
    ∀ (l : List Char) {c : Char} {cs : List Char}, l.dropWhile p = c :: cs → p c = false := by
  intro l
  induction l with
  | nil => intro c cs h; simp [List.dropWhile] at h
  | cons a t ih =>
      intro c cs h
      rw [List.dropWhile_cons] at h
      by_cases hpa : p a
      · exact ih (by simpa [hpa] using h)
      · simp only [hpa, if_false] at h
        cases h
        simpa using hpa

lemma dropWhile_dropWhile (p : Char → Bool) (l : List Char) :
    (l.dropWhile p).dropWhile p = l.dropWhile p := by
  cases h : l.dropWhile p with
  | nil => simp
  | cons c cs =>
      rw [List.dropWhile_cons, dropWhile_head_false p l h]
      simp

lemma trimL_trimL (l : List Char) : trimL (trimL l) = trimL l :=
  dropWhile_dropWhile isJsWs l

lemma trimR_trimR (l : List Char) : trimR (trimR l) = trimR l := by
  unfold trimR
  rw [List.reverse_reverse, dropWhile_dropWhile]

lemma trimR_decomp (l : List Char) :
    l = trimR l ++ (l.reverse.takeWhile isJsWs).reverse := by
  unfold trimR
  conv_lhs => rw [← List.reverse_reverse l,
    ← List.takeWhile_append_dropWhile isJsWs l.reverse]
  rw [List.reverse_append]

lemma trimL_of_concat_fix (X t : List Char) (hfix : trimL (X ++ t) = X ++ t) :
    trimL X = X := by
  cases X with
  | nil => rfl
  | cons x xs =>
      unfold trimL at hfix ⊢
      rw [List.cons_append, List.dropWhile_cons] at hfix
      by_cases hx : isJsWs x
      · exfalso
        rw [if_pos hx] at hfix
        have hle : ((xs ++ t).dropWhile isJsWs).length ≤ (xs ++ t).length :=
          (List.dropWhile_sublist isJsWs).length_le
        simp only [hfix, List.length_cons] at hle
        omega
      · rw [List.dropWhile_cons, if_neg hx]

lemma jsTrimList_idem (l : List Char) : jsTrimList (jsTrimList l) = jsTrimList l := by
  rw [jsTrimList_eq, jsTrimList_eq]
  have h1 : trimL (trimR (trimL l)) = trimR (trimL l) := by
    apply trimL_of_concat_fix _ ((trimL l).reverse.takeWhile isJsWs).reverse
    rw [← trimR_decomp]
    exact trimL_trimL l
  rw [h1, trimR_trimR]

lemma jsTrim_idem (s : String) : jsTrim (jsTrim s) = jsTrim s := by
  unfold jsTrim
  exact congrArg String.mk (jsTrimList_idem s.data)

lemma jsTrim_jsTrim_ne {s : String} (h : jsTrim s ≠ "") : jsTrim (jsTrim s) ≠ "" := by
  rw [jsTrim_idem]; exact h

lemma append_user_ne (x : String) : ("user_" ++ x) ≠ "" := by
  intro h
  have hd := congrArg String.data h
  rw [String.data_append] at hd
  simp at hd

lemma uidOfUser_ne (u : User) : uidOfUser u ≠ "" := by
  unfold uidOfUser jsOrStr
  by_cases h : u.user_id = ""
  · rw [if_pos h]; exact append_user_ne u.username
  · rw [if_neg h]; exact h

/-! ## Controller reduction lemmas -/

lemma sendChatMessage_model_pass (mt userId : String) (tid : Option String)
    (o : FetchOutcome SendResp) (h1 : mt ≠ "") (h2 : jsTrim mt ≠ "") (h3 : userId ≠ "") :
    sendChatMessage_model mt userId tid o =
      match o with
      | .success b => .ok b
      | .httpError statusText eb =>
          .error ⟨true, jsOrS eb.detail (jsOrS eb.message
            ("Failed to send message: " ++ statusText))⟩
      | .reject e =>
          if e.isError then .error e
          else .error ⟨true, "Network error: Failed to send message"⟩ := by
  unfold sendChatMessage_model
  rw [if_neg (by simp [h1, h2]), if_neg h3]

/-- Predicate selecting user-role append effects. -/
def isUserAppend (e : Eff) : Bool :=
  match e with
  | .appendMsg m => m.role == "user"
  | _ => false

/-- Predicate selecting assistant-role append effects. -/
def isAsstAppend (e : Eff) : Bool :=
  match e with
  | .appendMsg m => m.role == "assistant"
  | _ => false

/-- Number of effects in a trace satisfying a predicate. -/
def countEff (p : Eff → Bool) (effs : List Eff) : Nat := (effs.filter p).length

lemma countEff_append (p : Eff → Bool) (a b : List Eff) :
    countEff p (a ++ b) = countEff p a + countEff p b := by
  simp [countEff, List.filter_append]

@[simp] lemma countEff_nil (p : Eff → Bool) : countEff p [] = 0 := rfl

@[simp] lemma countEff_cons (p : Eff → Bool) (e : Eff) (effs : List Eff) :
    countEff p (e :: effs) = (if p e = true then 1 else 0) + countEff p effs := by
  simp only [countEff, List.filter_cons]
  split <;> simp <;> omega

@[simp] lemma assistantOfResp_role (resp : SendResp) :
    (assistantOfResp resp).role = "assistant" := rfl

@[simp] lemma userMsg_role (t : String) : (userMsg t).role = "user" := rfl

@[simp] lemma photoReqMsg_role : photoReqMsg.role = "assistant" := rfl

@[simp] lemma errAssistantMsg_role (e : JsError) :
    (errAssistantMsg e).role = "assistant" := rfl

lemma fetch_effs (st : ChatState) (uid : String) (o : FetchOutcome ChatsJson) :
    (fetchChatsWithUserIdStep st uid o).2 = [] ∨
    (fetchChatsWithUserIdStep st uid o).2 = [Eff.apiGetChats uid] := by
  unfold fetchChatsWithUserIdStep
  by_cases h0 : uid = ""
  · left; rw [if_pos h0]
  · rw [if_neg h0]
    cases hE : getChats_model uid o with
    | error e => right; rfl
    | ok cj =>
        cases cj with
        | notArr => right; rfl
        | arr data =>
            cases data with
            | nil => right; rfl
            | cons c cs =>
                by_cases hac : st.activeChat.isNone
                · right; simp [hac]
                · right; simp [hac]

lemma fetch_counts (st : ChatState) (uid : String) (o : FetchOutcome ChatsJson) :
    countEff isUserAppend (fetchChatsWithUserIdStep st uid o).2 = 0 ∧
    countEff isAsstAppend (fetchChatsWithUserIdStep st uid o).2 = 0 := by
  rcases fetch_effs st uid o with h | h <;>
    simp [h, countEff, isUserAppend, isAsstAppend]

lemma fetch_mem (st : ChatState) (uid : String) (o : FetchOutcome ChatsJson) :
    ∀ e ∈ (fetchChatsWithUserIdStep st uid o).2, e = Eff.apiGetChats uid := by
  rcases fetch_effs st uid o with h | h <;> simp [h]

lemma sendCore_counts (st1 : ChatState) (u : User) (userId mt : String)
    (tid : Option String) (env : SendEnv) (tts : Bool) :
    countEff isUserAppend (sendCore st1 u userId mt tid env tts).2 = 0 ∧
    countEff isAsstAppend (sendCore st1 u userId mt tid env tts).2 ≤ 1 := by
  unfold sendCore
  cases hE : sendChatMessage_model mt userId tid env.sendOutcome with
  | ok resp =>
      rcases fetch_effs { st1 with messages := st1.messages ++ [assistantOfResp resp] }
          (uidOfUser u) env.chatsOutcome with hf1 | hf1 <;>
      rcases fetch_effs st1 (uidOfUser u) env.chatsOutcome with hf0 | hf0 <;>
      by_cases hr : resp.response = "" <;>
      by_cases hu : u.user_id = "" <;>
      cases tts <;>
      simp +decide [hr, hu, hf0, hf1, countEff_append, isUserAppend, isAsstAppend]
  | error e =>
      by_cases hc : ¬e.message = "" ∧ containsSubS e.message "upload at least one photo" = true
      · simp +decide [if_pos hc, isUserAppend, isAsstAppend]
      · simp +decide [if_neg hc, isUserAppend, isAsstAppend]

lemma sendMessageStep_run (chats : List Chat) (ms : List Msg) (inp : String)
    (u : User) (ac : Chat) (env : SendEnv)
    (h1 : jsTrim inp ≠ "") (h2 : u.username ≠ "") :
    sendMessageStep ⟨chats, some ac, ms, inp, false, some u⟩ env =
      ({ (sendCore ⟨chats, some ac, ms ++ [userMsg (jsTrim inp)], "", true, some u⟩
            u (uidOfUser u) (jsTrim inp) (tidOfChat ac) env false).1 with isSending := false },
       [Eff.appendMsg (userMsg (jsTrim inp)),
        Eff.apiSend (jsTrim inp) (uidOfUser u) (tidOfChat ac)] ++
         (sendCore ⟨chats, some ac, ms ++ [userMsg (jsTrim inp)], "", true, some u⟩
            u (uidOfUser u) (jsTrim inp) (tidOfChat ac) env false).2) := by
  unfold sendMessageStep
  rw [if_neg (by simp [h1])]
  simp only [if_neg h2]

lemma sendMessageFromTextStep_run (chats : List Chat) (ms : List Msg)
    (inp text : String) (u : User) (ac : Chat) (env : SendEnv)
    (h1 : jsTrim text ≠ "") (h2 : u.username ≠ "") :
    sendMessageFromTextStep ⟨chats, some ac, ms, inp, false, some u⟩ text env =
      ({ (sendCore ⟨chats, some ac, ms ++ [userMsg text], inp, true, some u⟩
            u (uidOfUser u) text (tidOfChat ac) env true).1 with isSending := false },
       [Eff.appendMsg (userMsg text), Eff.apiSend text (uidOfUser u) (tidOfChat ac)] ++
         (sendCore ⟨chats, some ac, ms ++ [userMsg text], inp, true, some u⟩
            u (uidOfUser u) text (tidOfChat ac) env true).2) := by
  unfold sendMessageFromTextStep
  rw [if_neg (by simp [h1])]
  simp only [if_neg h2]

lemma sendCore_error (st1 : ChatState) (u : User) (userId mt : String)
    (tid : Option String) (env : SendEnv) (tts : Bool) (e : JsError)
    (h : sendChatMessage_model mt userId tid env.sendOutcome = .error e) :
    sendCore st1 u userId mt tid env tts =
      if e.message ≠ "" && containsSubS e.message "upload at least one photo" then
        ({ st1 with messages := st1.messages ++ [photoReqMsg] },
         [Eff.appendMsg photoReqMsg, Eff.navigateDelayed "/dashboard" 3000])
      else
        ({ st1 with messages := st1.messages ++ [errAssistantMsg e] },
         [Eff.appendMsg (errAssistantMsg e)]) := by
  unfold sendCore
  rw [h]

lemma sendCore_success (st1 : ChatState) (u : User) (userId mt : String)
    (tid : Option String) (env : SendEnv) (tts : Bool) (resp : SendResp)
    (h : sendChatMessage_model mt userId tid env.sendOutcome = .ok resp)
    (hr : resp.response ≠ "") :
    sendCore st1 u userId mt tid env tts =
      ((if u.user_id = "" then
          (({ st1 with messages := st1.messages ++ [assistantOfResp resp] } : ChatState),
           ([] : List Eff))
        else fetchChatsWithUserIdStep
          { st1 with messages := st1.messages ++ [assistantOfResp resp] }
          (uidOfUser u) env.chatsOutcome).1,
       ([Eff.appendMsg (assistantOfResp resp)] ++
          (if tts then [Eff.ttsPlay resp.response] else [])) ++
        (if u.user_id = "" then
          (({ st1 with messages := st1.messages ++ [assistantOfResp resp] } : ChatState),
           ([] : List Eff))
        else fetchChatsWithUserIdStep
          { st1 with messages := st1.messages ++ [assistantOfResp resp] }
          (uidOfUser u) env.chatsOutcome).2) := by
  unfold sendCore
  rw [h]
  simp only [if_neg hr]

/-! ## Claim theorems -/

/-- C7: invoking the send protocol while a send is in flight, with empty or
whitespace-only input, with no persisted user, or with no active chat is a
silent no-op for both the text and the voice variant: the state (message
list, chat list, active chat, sending flag) is returned unchanged, no
effect is produced (in particular no `sendChatMessage` request), and no
error is raised. -/
theorem C7_noop_guards :
    (∀ (st : ChatState) (env : SendEnv),
       (jsTrim st.input = "" ∨ st.isSending = true ∨ st.user = none ∨ st.activeChat = none) →
       sendMessageStep st env = (st, [])) ∧
    (∀ (st : ChatState) (text : String) (env : SendEnv),
       (jsTrim text = "" ∨ st.isSending = true ∨ st.user = none ∨ st.activeChat = none) →
       sendMessageFromTextStep st text env = (st, [])) := by
  constructor
  · intro st env h
    unfold sendMessageStep
    rcases h with h | h | h | h
    · rw [if_pos (by simp [h])]
    · rw [if_pos (by simp [h])]
    · split
      · rfl
      · rw [h]
    · split
      · rfl
      · cases hu : st.user with
        | none => rfl
        | some u =>
            by_cases hn : u.username = ""
            · simp [hn]
            · simp [hn, h]
  · intro st text env h
    unfold sendMessageFromTextStep
    rcases h with h | h | h | h
    · rw [if_pos (by simp [h])]
    · rw [if_pos (by simp [h])]
    · split
      · rfl
      · rw [h]
    · split
      · rfl
      · cases hu : st.user with
        | none => rfl
        | some u =>
            by_cases hn : u.username = ""
            · simp [hn]
            · simp [hn, h]

/-- Concrete environment used by several witnesses. -/
def envW : SendEnv := ⟨.success ⟨"ok", none, none, none⟩, .success (.arr [])⟩

/-- Concrete user used by several witnesses. -/
def userW : User := ⟨"alice", "u1", some ["https://example.com/p.jpg"]⟩

/-- Concrete chat used by several witnesses. -/
def chatW : Chat := ⟨some "room1", none, none, some "Chat 1", none, some []⟩

/-- Witness for C7 at a concrete state: an in-flight send (sending flag
true) is a no-op for both variants. -/
theorem C7_noop_guards_witness :
    sendMessageStep ⟨[], some chatW, [], "hi", true, some userW⟩ envW =
      (⟨[], some chatW, [], "hi", true, some userW⟩, []) ∧
    sendMessageFromTextStep ⟨[], some chatW, [], "", true, some userW⟩ "hi" envW =
      (⟨[], some chatW, [], "", true, some userW⟩, []) :=
  ⟨C7_noop_guards.1 ⟨[], some chatW, [], "hi", true, some userW⟩ envW (Or.inr (Or.inl rfl)),
   C7_noop_guards.2 ⟨[], some chatW, [], "", true, some userW⟩ "hi" envW (Or.inr (Or.inl rfl))⟩

/-- C2: with non-empty trimmed input, a present user and active chat, and
the sending flag initially false, one run of the send protocol (either
variant) appends exactly one user-role message, at most one
assistant-role message, and ends with the sending flag false again,
whatever the network does. -/
theorem C2_send_appends_and_flag :
    (∀ (chats : List Chat) (ms : List Msg) (inp : String) (u : User) (ac : Chat) (env : SendEnv),
       jsTrim inp ≠ "" → u.username ≠ "" →
       countEff isUserAppend (sendMessageStep ⟨chats, some ac, ms, inp, false, some u⟩ env).2 = 1 ∧
       countEff isAsstAppend (sendMessageStep ⟨chats, some ac, ms, inp, false, some u⟩ env).2 ≤ 1 ∧
       (sendMessageStep ⟨chats, some ac, ms, inp, false, some u⟩ env).1.isSending = false) ∧
    (∀ (chats : List Chat) (ms : List Msg) (inp text : String) (u : User) (ac : Chat) (env : SendEnv),
       jsTrim text ≠ "" → u.username ≠ "" →
       countEff isUserAppend (sendMessageFromTextStep ⟨chats, some ac, ms, inp, false, some u⟩ text env).2 = 1 ∧
       countEff isAsstAppend (sendMessageFromTextStep ⟨chats, some ac, ms, inp, false, some u⟩ text env).2 ≤ 1 ∧
       (sendMessageFromTextStep ⟨chats, some ac, ms, inp, false, some u⟩ text env).1.isSending = false) := by
  constructor
  · intro chats ms inp u ac env h1 h2
    rw [sendMessageStep_run chats ms inp u ac env h1 h2]
    have hc := sendCore_counts ⟨chats, some ac, ms ++ [userMsg (jsTrim inp)], "", true, some u⟩
      u (uidOfUser u) (jsTrim inp) (tidOfChat ac) env false
    refine ⟨?_, ?_, rfl⟩
    · simp +decide [countEff_append, hc.1, isUserAppend, isAsstAppend]
    · have := hc.2
      simp +decide [countEff_append, isUserAppend, isAsstAppend]
      omega
  · intro chats ms inp text u ac env h1 h2
    rw [sendMessageFromTextStep_run chats ms inp text u ac env h1 h2]
    have hc := sendCore_counts ⟨chats, some ac, ms ++ [userMsg text], inp, true, some u⟩
      u (uidOfUser u) text (tidOfChat ac) env true
    refine ⟨?_, ?_, rfl⟩
    · simp +decide [countEff_append, hc.1, isUserAppend, isAsstAppend]
    · have := hc.2
      simp +decide [countEff_append, isUserAppend, isAsstAppend]
      omega

/-- Witness for C2 at a concrete state and environment. -/
theorem C2_send_appends_and_flag_witness :
    countEff isUserAppend (sendMessageStep ⟨[], some chatW, [], "hi", false, some userW⟩ envW).2 = 1 ∧
    countEff isAsstAppend (sendMessageStep ⟨[], some chatW, [], "hi", false, some userW⟩ envW).2 ≤ 1 ∧
    (sendMessageStep ⟨[], some chatW, [], "hi", false, some userW⟩ envW).1.isSending = false :=
  C2_send_appends_and_flag.1 [] [] "hi" userW chatW envW (by decide) (by decide)

/-- C4: every `sendChatMessage` rejection is absorbed by the send
protocol: when the error message contains the substring
"upload at least one photo" the controller appends the explanatory
assistant message and schedules a delayed navigation to the dashboard
(profile) page; for any other rejection it appends an assistant message
reading `Error: ` followed by the error message (or the generic
fallback) and produces no navigation effect; the protocol always
settles normally (the step function is total and ends with the sending
flag false — nothing is re-thrown). -/
theorem C4_error_branches :
    ∀ (chats : List Chat) (ms : List Msg) (inp : String) (u : User) (ac : Chat)
      (env : SendEnv) (e : JsError),
      jsTrim inp ≠ "" → u.username ≠ "" →
      sendChatMessage_model (jsTrim inp) (uidOfUser u) (tidOfChat ac) env.sendOutcome = .error e →
      ((containsSubS e.message "upload at least one photo" = true →
          (sendMessageStep ⟨chats, some ac, ms, inp, false, some u⟩ env).2 =
            [Eff.appendMsg (userMsg (jsTrim inp)),
             Eff.apiSend (jsTrim inp) (uidOfUser u) (tidOfChat ac),
             Eff.appendMsg photoReqMsg,
             Eff.navigateDelayed "/dashboard" 3000]) ∧
       (containsSubS e.message "upload at least one photo" = false →
          (sendMessageStep ⟨chats, some ac, ms, inp, false, some u⟩ env).2 =
            [Eff.appendMsg (userMsg (jsTrim inp)),
             Eff.apiSend (jsTrim inp) (uidOfUser u) (tidOfChat ac),
             Eff.appendMsg (errAssistantMsg e)]) ∧
       (sendMessageStep ⟨chats, some ac, ms, inp, false, some u⟩ env).1.isSending = false) := by
  intro chats ms inp u ac env e h1 h2 hE
  rw [sendMessageStep_run chats ms inp u ac env h1 h2]
  rw [sendCore_error _ _ _ _ _ _ _ _ hE]
  by_cases hc : containsSubS e.message "upload at least one photo" = true
  · have hm : e.message ≠ "" := by
      intro h0
      rw [h0] at hc
      exact absurd hc (by decide)
    rw [if_pos (by simp [hm, hc])]
    refine ⟨fun _ => rfl, fun hf => ?_, rfl⟩
    rw [hc] at hf
    cases hf
  · have hcf : containsSubS e.message "upload at least one photo" = false := by
      cases hX : containsSubS e.message "upload at least one photo"
      · rfl
      · exact absurd hX hc
    rw [if_neg (by simp [hcf])]
    exact ⟨fun ht => absurd ht hc, fun _ => rfl, rfl⟩

/-- Concrete environment whose send fetch fails with a server-reported
message carrying no photo-precondition text. -/
def envErrW : SendEnv :=
  ⟨.httpError "Bad Request" ⟨some "Some failure", none⟩, .success (.arr [])⟩

/-- Witness for C4: a concrete rejected send appends the generic error
message and produces no navigation effect. -/
theorem C4_error_branches_witness :
    (sendMessageStep ⟨[], some chatW, [], "hi", false, some userW⟩ envErrW).2 =
      [Eff.appendMsg (userMsg (jsTrim "hi")),
       Eff.apiSend (jsTrim "hi") (uidOfUser userW) (tidOfChat chatW),
       Eff.appendMsg (errAssistantMsg ⟨true, "Some failure"⟩)] :=
  ((C4_error_branches [] [] "hi" userW chatW envErrW ⟨true, "Some failure"⟩
      (by decide) (by decide) rfl).2.1) (by decide)

/-- C5: a successful send whose response has a non-empty reply and both
`ranked_products` and `styled_products` appends an assistant message
whose unified `products` field is `ranked_products`; it is the only
assistant message appended by that run. -/
theorem C5_ranked_over_styled :
    ∀ (chats : List Chat) (ms : List Msg) (inp : String) (u : User) (ac : Chat)
      (env : SendEnv) (resp : SendResp) (r s : List Product),
      jsTrim inp ≠ "" → u.username ≠ "" →
      env.sendOutcome = .success resp → resp.response ≠ "" →
      resp.ranked_products = some r → resp.styled_products = some s →
      ∃ m : Msg,
        Eff.appendMsg m ∈ (sendMessageStep ⟨chats, some ac, ms, inp, false, some u⟩ env).2 ∧
        m.role = "assistant" ∧ m.content = resp.response ∧
        m.products = some r ∧ m.ranked_products = some r ∧
        (∀ m2 : Msg,
           Eff.appendMsg m2 ∈ (sendMessageStep ⟨chats, some ac, ms, inp, false, some u⟩ env).2 →
           m2.role = "assistant" → m2 = m) := by
  intro chats ms inp u ac env resp r s h1 h2 hso hr hrp hsp
  have hmodel : sendChatMessage_model (jsTrim inp) (uidOfUser u) (tidOfChat ac) env.sendOutcome
      = .ok resp := by
    rw [sendChatMessage_model_pass (jsTrim inp) (uidOfUser u) (tidOfChat ac) env.sendOutcome
        h1 (jsTrim_jsTrim_ne h1) (uidOfUser_ne u), hso]
  rw [sendMessageStep_run chats ms inp u ac env h1 h2]
  rw [sendCore_success _ _ _ _ _ _ _ _ hmodel hr]
  refine ⟨assistantOfResp resp, ?_, rfl, rfl, ?_, ?_, ?_⟩
  · simp
  · simp [assistantOfResp, hrp, jsOrP]
  · simp [assistantOfResp, hrp]
  · intro m2 hm2 hrole
    rw [List.mem_append] at hm2
    rcases hm2 with hm2 | hm2
    · simp only [List.mem_cons, List.not_mem_nil, or_false] at hm2
      rcases hm2 with hm2 | hm2
      · injection hm2 with h
        subst h
        simp at hrole
      · simp at hm2
    · rw [List.mem_append] at hm2
      rcases hm2 with hm2 | hm2
      · simp only [if_neg (Bool.false_ne_true), List.append_nil,
          List.mem_singleton, Eff.appendMsg.injEq] at hm2
        exact hm2
      · by_cases hu : u.user_id = ""
        · rw [if_pos hu] at hm2
          simp at hm2
        · rw [if_neg hu] at hm2
          have hq := fetch_mem _ _ _ _ hm2
          simp at hq

/-- Concrete environment whose send fetch succeeds with both product lists. -/
def envBothW : SendEnv :=
  ⟨.success ⟨"here you go",
      some [⟨some "p1", some "Shirt", none, none, none, none, none⟩],
      some [⟨some "p2", some "Pants", none, none, none, none, none⟩], none⟩,
   .success (.arr [])⟩

/-- Witness for C5 at a concrete successful response carrying both
ranked and styled product lists. -/
theorem C5_ranked_over_styled_witness :
    ∃ m : Msg,
      Eff.appendMsg m ∈ (sendMessageStep ⟨[], some chatW, [], "hi", false, some userW⟩ envBothW).2 ∧
      m.role = "assistant" ∧ m.content = "here you go" ∧
      m.products = some [⟨some "p1", some "Shirt", none, none, none, none, none⟩] ∧
      m.ranked_products = some [⟨some "p1", some "Shirt", none, none, none, none, none⟩] ∧
      (∀ m2 : Msg,
         Eff.appendMsg m2 ∈ (sendMessageStep ⟨[], some chatW, [], "hi", false, some userW⟩ envBothW).2 →
         m2.role = "assistant" → m2 = m) :=
  C5_ranked_over_styled [] [] "hi" userW chatW envBothW
    ⟨"here you go",
     some [⟨some "p1", some "Shirt", none, none, none, none, none⟩],
     some [⟨some "p2", some "Pants", none, none, none, none, none⟩], none⟩
    [⟨some "p1", some "Shirt", none, none, none, none, none⟩]
    [⟨some "p2", some "Pants", none, none, none, none, none⟩]
    (by decide) (by decide) rfl (by decide) rfl rfl

/-- C6: a `getChats` resolution that is not an array makes the controller
set its chat list to the empty list, leaving the active chat and message
list untouched; and `getChats` itself, given a user id that is empty
after trimming, produces the same validation rejection whatever the
network would do (it rejects before any request — `getChats_requestSent`
is false). -/
theorem C6_nonarray_and_validation :
    (∀ (st : ChatState) (uid : String) (o : FetchOutcome ChatsJson),
       uid ≠ "" → o = .success .notArr →
       (fetchChatsWithUserIdStep st uid o).1.chats = [] ∧
       (fetchChatsWithUserIdStep st uid o).1.activeChat = st.activeChat ∧
       (fetchChatsWithUserIdStep st uid o).1.messages = st.messages) ∧
    (∀ uid : String, jsTrim uid = "" →
       (∀ o o2 : FetchOutcome ChatsJson, getChats_model uid o = getChats_model uid o2) ∧
       (∀ o : FetchOutcome ChatsJson,
          getChats_model uid o = .error ⟨true, "User ID is required"⟩) ∧
       getChats_requestSent uid = false) := by
  constructor
  · intro st uid o h ho
    subst ho
    unfold fetchChatsWithUserIdStep
    rw [if_neg h]
    by_cases hv : (uid = "" || jsTrim uid = "") = true
    · unfold getChats_model
      rw [if_pos hv]
      exact ⟨rfl, rfl, rfl⟩
    · unfold getChats_model
      rw [if_neg hv]
      exact ⟨rfl, rfl, rfl⟩
  · intro uid h
    have hv : (uid = "" || jsTrim uid = "") = true := by simp [h]
    refine ⟨?_, ?_, ?_⟩
    · intro o o2
      unfold getChats_model
      rw [if_pos hv, if_pos hv]
    · intro o
      unfold getChats_model
      rw [if_pos hv]
    · unfold getChats_requestSent
      rw [hv]
      rfl

/-- Witness for C6 at a concrete state, id and outcome. -/
theorem C6_nonarray_and_validation_witness :
    (fetchChatsWithUserIdStep ⟨[chatW], some chatW, [userMsg "hey"], "", false, some userW⟩
        "u1" (.success .notArr)).1.chats = [] ∧
    (fetchChatsWithUserIdStep ⟨[chatW], some chatW, [userMsg "hey"], "", false, some userW⟩
        "u1" (.success .notArr)).1.activeChat = some chatW ∧
    (fetchChatsWithUserIdStep ⟨[chatW], some chatW, [userMsg "hey"], "", false, some userW⟩
        "u1" (.success .notArr)).1.messages = [userMsg "hey"] ∧
    getChats_model " " (.success (.arr [chatW])) = .error ⟨true, "User ID is required"⟩ ∧
    getChats_requestSent " " = false := by
  have h1 := (C6_nonarray_and_validation.1
    ⟨[chatW], some chatW, [userMsg "hey"], "", false, some userW⟩ "u1"
    (.success .notArr) (by decide) rfl)
  have h2 := C6_nonarray_and_validation.2 " " (by decide)
  exact ⟨h1.1, h1.2.1, h1.2.2, h2.2.1 (.success (.arr [chatW])), h2.2.2⟩

/-- C9: opening the chat page with a persisted user whose profile has no
photo references (list missing or empty) navigates straight to the
dashboard; no `getChats` call is issued by the mount protocol. -/
theorem C9_photo_gate :
    ∀ (pu : User) (o : FetchOutcome ChatsJson),
      (pu.photo_urls = none ∨ pu.photo_urls = some []) →
      mountStep (some pu) o =
        ({ initialChatState with user := some pu }, [Eff.navigate "/dashboard"]) ∧
      (∀ uid, Eff.apiGetChats uid ∉ (mountStep (some pu) o).2) := by
  intro pu o h
  have hcond : (match pu.photo_urls with
      | none => true
      | some l => l.isEmpty) = true := by
    rcases h with h | h <;> simp [h]
  have h1 : mountStep (some pu) o =
      ({ initialChatState with user := some pu }, [Eff.navigate "/dashboard"]) := by
    unfold mountStep
    rcases h with h | h <;> simp [h, initialChatState]
  refine ⟨h1, ?_⟩
  intro uid hmem
  rw [h1] at hmem
  simp at hmem

/-- Witness for C9 with a concrete photo-less user. -/
theorem C9_photo_gate_witness :
    mountStep (some ⟨"bob", "u2", none⟩) (.success (.arr [chatW])) =
      ({ initialChatState with user := some ⟨"bob", "u2", none⟩ },
       [Eff.navigate "/dashboard"]) ∧
    (∀ uid, Eff.apiGetChats uid ∉
      (mountStep (some ⟨"bob", "u2", none⟩) (.success (.arr [chatW]))).2) :=
  C9_photo_gate ⟨"bob", "u2", none⟩ (.success (.arr [chatW])) (Or.inl rfl)

/-- C8: the claim that a network failure surfaces the generic
`Network error: ...` message is contradicted by the code: a browser
`fetch` rejects with a `TypeError`, which is an `Error` instance, and the
catch blocks re-throw `Error` instances unchanged — so the surfaced
message is the raw rejection message (`Failed to fetch`), and the
`Network error: ...` branch is reached only for thrown values that are
not `Error` instances, which the fetch path never produces. -/
theorem C8_network_error_unreachable :
    getChats_model "u1" (.reject ⟨true, "Failed to fetch"⟩) =
      .error ⟨true, "Failed to fetch"⟩ ∧
    sendChatMessage_model "hi" "u1" none (.reject ⟨true, "Failed to fetch"⟩) =
      .error ⟨true, "Failed to fetch"⟩ ∧
    getChats_model "u1" (.reject ⟨false, "odd value"⟩) =
      .error ⟨true, "Network error: Failed to connect to server"⟩ ∧
    sendChatMessage_model "hi" "u1" none (.reject ⟨false, "odd value"⟩) =
      .error ⟨true, "Network error: Failed to send message"⟩ :=
  ⟨rfl, rfl, rfl, rfl⟩

/-- C3 counterexample: a whitespace-only user id is empty after trimming,
yet `sendChatMessage` and `createChat` accept it and proceed to their
HTTP request (no rejection); by contrast `getChats` does trim. -/
theorem C3_counterexample :
    jsTrim " " = "" ∧
    sendChatMessage_requestSent "hi" " " = true ∧
    createChat_requestSent ⟨some " ", none⟩ = true ∧
    getChats_requestSent " " = false := by
  refine ⟨?_, ?_, ?_, ?_⟩ <;> decide

/-- C3 (amended): every API function validates before its single fetch,
but not all of them trim: `getChats` rejects exactly the ids that are
empty after trimming, and `sendChatMessage` rejects an untrimmable
(whitespace-only) message; however `sendChatMessage` checks its
`userId` and `createChat` its `user_id` only for truthiness
(non-emptiness without trimming), so whitespace-only values pass
validation and the request is issued. -/
theorem C3_validation_amended :
    (∀ uid : String, getChats_requestSent uid = false ↔ jsTrim uid = "") ∧
    (∀ m uid : String, jsTrim m = "" → sendChatMessage_requestSent m uid = false) ∧
    (∀ m uid : String, jsTrim m ≠ "" →
       (sendChatMessage_requestSent m uid = true ↔ uid ≠ "")) ∧
    (∀ cd : ChatData, createChat_requestSent cd = true ↔
       ∃ s, cd.user_id = some s ∧ s ≠ "") := by
  have hempty : jsTrim "" = "" := rfl
  refine ⟨?_, ?_, ?_, ?_⟩
  · intro uid
    unfold getChats_requestSent
    by_cases h0 : uid = ""
    · subst h0; simp [hempty]
    · simp [h0]
  · intro m uid h
    unfold sendChatMessage_requestSent
    simp [h]
  · intro m uid h
    have hm : m ≠ "" := by
      intro h0; subst h0; exact h hempty
    unfold sendChatMessage_requestSent
    simp [h, hm]
  · intro cd
    unfold createChat_requestSent createChat_validation
    cases hcd : cd.user_id with
    | none => simp
    | some s =>
        by_cases hs : s = ""
        · simp [hs]
        · simp [hs]

/-- Witness for the amended C3 at concrete arguments. -/
theorem C3_validation_amended_witness :
    getChats_requestSent " " = false ∧
    sendChatMessage_requestSent "hi" " " = true ∧
    createChat_requestSent ⟨some " ", none⟩ = true :=
  ⟨(C3_validation_amended.1 " ").mpr (by decide),
   (C3_validation_amended.2.2.1 "hi" " " (by decide)).mpr (by decide),
   (C3_validation_amended.2.2.2 ⟨some " ", none⟩).mpr ⟨" ", rfl, by decide⟩⟩

/-- The server-side view of the active chat after the send used by the C1
counterexample: same identifiers as `chatW`, but the message sequence
recorded by the backend. -/
def srvChatW : Chat :=
  ⟨some "room1", none, none, some "Chat 1", none,
   some [⟨"user", "hi", none, none, none, none⟩,
         ⟨"assistant", "server view of the reply", none, none, none, none⟩]⟩

/-- Concrete send environment for the C1 counterexample: the send fetch
succeeds with reply "ok" and the reconciliation fetch returns the
server's chat list `[srvChatW]`. -/
def c1EnvW : SendEnv := ⟨.success ⟨"ok", none, none, none⟩, .success (.arr [srvChatW])⟩

/-- C1 counterexample: a send that succeeds with a non-empty reply does
re-fetch the chat list, but the working message list is not replaced by
the server's view — after the send settles the local message list is the
optimistic sequence, which differs from the message sequence of the
active chat as returned by `getChats` (here the server recorded a
different assistant text), refuting the claimed convergence. -/
theorem C1_counterexample :
    (sendMessageStep ⟨[chatW], some chatW, [], "hi", false, some userW⟩ c1EnvW).1.chats =
      [srvChatW] ∧
    (sendMessageStep ⟨[chatW], some chatW, [], "hi", false, some userW⟩ c1EnvW).1.activeChat =
      some chatW ∧
    (sendMessageStep ⟨[chatW], some chatW, [], "hi", false, some userW⟩ c1EnvW).1.messages =
      [userMsg "hi", assistantOfResp ⟨"ok", none, none, none⟩] ∧
    (sendMessageStep ⟨[chatW], some chatW, [], "hi", false, some userW⟩ c1EnvW).1.messages ≠
      srvChatW.messages.getD [] := by
  refine ⟨?_, ?_, ?_, ?_⟩ <;> decide

/-- C1 (amended): for every send that succeeds with a non-empty reply
string, performed with a user record whose `user_id` is present (and not
whitespace-only), the controller appends exactly one assistant message
and re-fetches the full chat list via `getChats`, replacing the
chat-list state with the server's returned list; the working message
list is not reconciled to the server's view: when the server list is
non-empty, the refetch leaves the active chat and the message list
untouched (the refetch writes them only when no chat is active, and a
chat is active during a send), so the local message list ends as the
optimistic sequence — prior messages plus the user message plus the one
assistant message; when the server list is empty, the refetch clears
the active chat and empties the message list. -/
theorem C1_reconciliation_amended :
    ∀ (chats : List Chat) (ms : List Msg) (inp : String) (u : User) (ac : Chat)
      (resp : SendResp) (serverChats : List Chat),
      jsTrim inp ≠ "" → u.username ≠ "" →
      u.user_id ≠ "" → jsTrim u.user_id ≠ "" →
      resp.response ≠ "" →
      sendMessageStep ⟨chats, some ac, ms, inp, false, some u⟩
          ⟨.success resp, .success (.arr serverChats)⟩ =
        (⟨serverChats,
          if serverChats = [] then none else some ac,
          if serverChats = [] then []
          else ms ++ [userMsg (jsTrim inp), assistantOfResp resp],
          "", false, some u⟩,
         [Eff.appendMsg (userMsg (jsTrim inp)),
          Eff.apiSend (jsTrim inp) u.user_id (tidOfChat ac),
          Eff.appendMsg (assistantOfResp resp),
          Eff.apiGetChats u.user_id]) := by
  intro chats ms inp u ac resp serverChats h1 h2 hu3 hu4 hr
  have huid : uidOfUser u = u.user_id := by
    unfold uidOfUser jsOrStr
    rw [if_neg hu3]
  have hmodel : sendChatMessage_model (jsTrim inp) (uidOfUser u) (tidOfChat ac)
      (SendEnv.mk (.success resp) (.success (.arr serverChats))).sendOutcome = .ok resp := by
    rw [sendChatMessage_model_pass (jsTrim inp) (uidOfUser u) (tidOfChat ac) _
        h1 (jsTrim_jsTrim_ne h1) (uidOfUser_ne u)]
  have hgm : getChats_model (uidOfUser u) (.success (.arr serverChats)) =
      .ok (.arr serverChats) := by
    unfold getChats_model
    rw [if_neg (by simp [uidOfUser_ne u, huid, hu3, hu4])]
  cases serverChats with
  | nil =>
      have hfetch : ∀ stX : ChatState,
          fetchChatsWithUserIdStep stX (uidOfUser u) (.success (.arr [])) =
          ({ stX with chats := [], activeChat := none, messages := [] },
           [Eff.apiGetChats (uidOfUser u)]) := by
        intro stX
        unfold fetchChatsWithUserIdStep
        rw [if_neg (uidOfUser_ne u), hgm]
      rw [sendMessageStep_run chats ms inp u ac _ h1 h2]
      rw [sendCore_success _ _ _ _ _ _ _ _ hmodel hr]
      simp only [if_neg hu3]
      rw [hfetch]
      simp [huid, List.append_assoc]
  | cons c cs =>
      have hfetch : ∀ stX : ChatState, stX.activeChat = some ac →
          fetchChatsWithUserIdStep stX (uidOfUser u) (.success (.arr (c :: cs))) =
          ({ stX with chats := c :: cs }, [Eff.apiGetChats (uidOfUser u)]) := by
        intro stX hX
        unfold fetchChatsWithUserIdStep
        rw [if_neg (uidOfUser_ne u), hgm]
        simp [hX]
      rw [sendMessageStep_run chats ms inp u ac _ h1 h2]
      rw [sendCore_success _ _ _ _ _ _ _ _ hmodel hr]
      simp only [if_neg hu3]
      rw [hfetch]
      · simp [huid, List.append_assoc]
      · rfl

/-- Witness for the amended C1 at concrete inputs, exercising both a
non-empty and an empty server chat list. -/
theorem C1_reconciliation_amended_witness :
    (sendMessageStep ⟨[chatW], some chatW, [], "hi", false, some userW⟩ c1EnvW =
      (⟨[srvChatW], some chatW,
        [userMsg (jsTrim "hi"), assistantOfResp ⟨"ok", none, none, none⟩],
        "", false, some userW⟩,
       [Eff.appendMsg (userMsg (jsTrim "hi")),
        Eff.apiSend (jsTrim "hi") "u1" (tidOfChat chatW),
        Eff.appendMsg (assistantOfResp ⟨"ok", none, none, none⟩),
        Eff.apiGetChats "u1"])) ∧
    (sendMessageStep ⟨[chatW], some chatW, [], "hi", false, some userW⟩
        ⟨.success ⟨"ok", none, none, none⟩, .success (.arr [])⟩ =
      (⟨[], none, [], "", false, some userW⟩,
       [Eff.appendMsg (userMsg (jsTrim "hi")),
        Eff.apiSend (jsTrim "hi") "u1" (tidOfChat chatW),
        Eff.appendMsg (assistantOfResp ⟨"ok", none, none, none⟩),
        Eff.apiGetChats "u1"])) :=
  ⟨C1_reconciliation_amended [chatW] [] "hi" userW chatW ⟨"ok", none, none, none⟩
    [srvChatW] (by decide) (by decide) (by decide) (by decide) (by decide),
   C1_reconciliation_amended [chatW] [] "hi" userW chatW ⟨"ok", none, none, none⟩
    [] (by decide) (by decide) (by decide) (by decide) (by decide)⟩

/-! ## S3-key URL helpers

Embedding of `getImageProxyUrl` and `extractS3KeyFromUrl` together with
models of the browser primitives they use: `new URL(...)` (scheme,
host, pathname — with dot segments removed as the standard's path
parser does — and query of an absolute URL written with `scheme://`;
characters the browser would percent-encode or otherwise rewrite, such
as spaces, control characters or non-ASCII, make the model parser
fail), `encodeURIComponent`
(percent-encoding of everything outside the unreserved set),
`URLSearchParams.get` (split on `&`/first `=`, `+` to space, lenient
percent-decode) and `decodeURIComponent` (strict percent-decode,
throwing — `none` — on a malformed sequence; multi-byte UTF-8
reassembly is outside the verified ASCII fragment). -/

/-- Split a query string on `&`. -/
def splitAmp : List Char → List (List Char)
  | [] => [[]]
  | c :: rest =>
      if c = '&' then [] :: splitAmp rest
      else
        match splitAmp rest with
        | g :: gs => (c :: g) :: gs
        | [] => [[c]]

lemma splitAmp_cons (c : Char) (rest : List Char) :
    splitAmp (c :: rest) =
      if c = '&' then [] :: splitAmp rest
      else
        (match splitAmp rest with
         | g :: gs => (c :: g) :: gs
         | [] => [[c]]) := rfl

lemma splitAmp_noamp (l : List Char) (h : ∀ c ∈ l, c ≠ '&') :
    splitAmp l = [l] := by
  induction l with
  | nil => rfl
  | cons a t ih =>
      have ha : a ≠ '&' := h a (by simp)
      rw [splitAmp_cons, if_neg ha, ih (fun c hc => h c (by simp [hc]))]

end AuraClient
